import Mathlib

/-!
Verification of the multi-tenant authentication and authorization layer of
the AI-HUB repository (src/server/tenant-auth.ts, src/server/tenant-routes.ts,
src/shared/tenant-schema.ts), shallowly embedded in Lean 4.

The relational store is modelled as lists of rows; drizzle `select ... where`
becomes `List.filter` followed by `head?` (the handlers destructure the first
row of the result set); JavaScript string truthiness (`undefined` and `""` are
falsy) is modelled explicitly where the source relies on it.
-/

namespace AIHub

/-- A row of the `tenants` table (tenant-schema.ts).  Timestamp and jsonb
bookkeeping columns (`address`, `settings`, `createdAt`, `updatedAt`) are not
read by any of the embedded operations and are omitted. -/
structure Tenant where
  id : Nat
  name : String
  slug : String
  apiKey : String
  subscriptionTier : String
  maxHubs : Nat
  maxCameras : Nat
  status : String
  billingEmail : Option String := none
  deriving Repr, DecidableEq

/-- A row of the `hub_licenses` table (tenant-schema.ts).  `features` is an
opaque jsonb blob; `expiresAt` is a nullable timestamp, kept as milliseconds
since epoch.  `createdAt`/`updatedAt`/`activatedAt` are unread and omitted. -/
structure HubLicense where
  id : Nat
  tenantId : Nat
  hubSerial : String
  licenseKey : String
  hubName : Option String := none
  deploymentLocation : Option String := none
  status : String
  maxCameras : Nat := 16
  features : String := ""
  expiresAt : Option Int := none
  deriving Repr, DecidableEq

/-- A row of the `hubs` table (tenant-schema.ts, `tenantsHubs`).  Columns not
touched by the heartbeat handler (`location`, `licenseId`, `systemArmed`,
timestamps of creation) are omitted. -/
structure Hub where
  id : Nat
  tenantId : Nat
  name : String
  serialNumber : String
  status : String
  lastHeartbeat : Option Int := none
  ipAddress : Option String := none
  version : Option String := none
  configuration : String := ""
  deriving Repr, DecidableEq

/-- A row of the `api_usage` table (tenant-schema.ts).  The serial primary key
and the `timestamp`/`hubId` columns play no part in the conflict target and
are omitted. -/
structure UsageRow where
  tenantId : Nat
  endpoint : String
  method : String
  month : String
  requestCount : Nat
  deriving Repr, DecidableEq

/-- The tenant snapshot placed in the request context by both authentication
middlewares (tenant-auth.ts, lines 79-90 and 162-166). -/
structure TenantSnapshot where
  id : Nat
  name : String
  slug : String
  subscriptionTier : String
  maxHubs : Nat
  maxCameras : Nat
  status : String
  deriving Repr, DecidableEq

/-- The optional user of a `TenantContext` (tenant-auth.ts, lines 33-38). -/
structure CtxUser where
  id : Nat
  email : String
  role : String
  permissions : List String
  deriving Repr, DecidableEq

/-- `TenantContext` (tenant-auth.ts, lines 22-39): the identity attached to a
request after authentication. -/
structure TenantContext where
  tenantId : Nat
  tenant : TenantSnapshot
  user : Option CtxUser := none
  deriving Repr, DecidableEq

/-- The persistent store: one list of rows per table used by the embedded
handlers. -/
structure DB where
  tenants : List Tenant
  hubLicenses : List HubLicense
  hubs : List Hub
  usage : List UsageRow
  deriving Repr, DecidableEq

/-- The `{error, message}` envelope of every failure response. -/
structure ErrorBody where
  error : String
  message : String
  deriving Repr, DecidableEq

/-- JavaScript truthiness of an optional string header/query value:
`undefined` and the empty string are falsy. -/
def jsTruthy : Option String → Bool
  | none => false
  | some s => s ≠ ""

/-- `a || b` over two optional string values, as used for
`req.headers['x-api-key'] as string || req.query.api_key as string`
(tenant-auth.ts, line 53), followed by the `if (!apiKey)` falsiness test:
yields the first truthy value, or nothing. -/
def firstTruthy (a b : Option String) : Option String :=
  if jsTruthy a then a else if jsTruthy b then b else none

/-- Projection of a tenant row to the context snapshot (tenant-auth.ts,
lines 81-89). -/
def tenantSnapshot (t : Tenant) : TenantSnapshot :=
  { id := t.id, name := t.name, slug := t.slug,
    subscriptionTier := t.subscriptionTier, maxHubs := t.maxHubs,
    maxCameras := t.maxCameras, status := t.status }

/-- Response bodies of the API-key pipeline (tenant-auth.ts, lines 56-59 and
72-75). -/
def apiKeyRequiredBody : ErrorBody :=
  { error := "API key required",
    message := "Provide API key in X-API-Key header or api_key query parameter" }

def invalidApiKeyBody : ErrorBody :=
  { error := "Invalid API key",
    message := "API key not found or tenant is inactive" }

/-- Response bodies of the hub-license pipeline (tenant-auth.ts, lines
112-115, 148-151 and 156-159). -/
def hubAuthRequiredBody : ErrorBody :=
  { error := "Hub authentication required",
    message := "Provide X-License-Key and X-Hub-Serial headers" }

def invalidHubLicenseBody : ErrorBody :=
  { error := "Invalid hub license",
    message := "License key/serial combination not found or inactive" }

def licenseExpiredBody : ErrorBody :=
  { error := "License expired",
    message := "Hub license has expired, please renew" }

/-- `findActiveByApiKey`: the single query of tenant-auth.ts, lines 63-69 —
`select from tenants where apiKey = key AND status = "active"`, destructured
to its first row. -/
def findActiveByApiKey (db : DB) (key : String) : Option Tenant :=
  (db.tenants.filter (fun t => t.apiKey = key ∧ t.status = "active")).head?

/-- Column sets carrying a unique index or constraint on the `api_usage`
table, as declared in tenant-schema.ts (lines 162-174): only the serial
primary key `id`.  `idx_api_usage_tenant_month` and `idx_api_usage_endpoint`
are declared with `index(...)`, which is non-unique. -/
def apiUsageUniqueColumnSets : List (List String) := [["id"]]

/-- The conflict target of `trackApiUsage`'s `onConflictDoUpdate`
(tenant-auth.ts, line 195): the columns (tenantId, endpoint, method, month). -/
def usageConflictTarget : List String :=
  ["tenant_id", "endpoint", "method", "month"]

/-- Set equality of two column lists. -/
def sameColumnSet (a b : List String) : Bool :=
  a.all (fun c => b.contains c) && b.all (fun c => a.contains c)

/-- Row match on the conflict target's key. -/
def usageKeyMatches (r : UsageRow) (tid : Nat) (ep mth mon : String) : Bool :=
  r.tenantId = tid ∧ r.endpoint = ep ∧ r.method = mth ∧ r.month = mon

/-- The `DO UPDATE` upsert intended by tenant-auth.ts lines 188-199: insert a
row with `requestCount := 1`, or, on a key conflict, add 1 to the existing
row's counter. -/
def upsertUsageRow (rows : List UsageRow) (tid : Nat) (ep mth mon : String) :
    List UsageRow :=
  if rows.any (fun r => usageKeyMatches r tid ep mth mon) then
    rows.map (fun r =>
      if usageKeyMatches r tid ep mth mon then
        { r with requestCount := r.requestCount + 1 }
      else r)
  else
    rows ++ [{ tenantId := tid, endpoint := ep, method := mth, month := mon,
               requestCount := 1 }]

/-- `trackApiUsage` (tenant-auth.ts, lines 182-204).  The generated SQL is
`INSERT ... ON CONFLICT (tenant_id, endpoint, method, month) DO UPDATE SET
request_count = ... + 1`.  PostgreSQL accepts an `ON CONFLICT` column target
only when a unique index or constraint covers exactly those columns; the
schema declares none on this set, so the statement fails (error 42P10,
"there is no unique or exclusion constraint matching the ON CONFLICT
specification").  The surrounding `try/catch` swallows the error ("Don't fail
requests if usage tracking fails"), leaving the store unchanged. -/
def trackApiUsage (db : DB) (tid : Nat) (ep mth mon : String) : DB :=
  if apiUsageUniqueColumnSets.any (fun cols => sameColumnSet cols usageConflictTarget) then
    { db with usage := upsertUsageRow db.usage tid ep mth mon }
  else
    db

/-- Outcome of an authentication middleware: a terminal rejection (written
before any store access mutates state), or a pass to the next handler with
the attached context and the store as left by the usage tracker. -/
inductive MwResult where
  | reject (status : Nat) (body : ErrorBody)
  | next (ctx : TenantContext) (db : DB)
  deriving Repr, DecidableEq

/-- `authenticateApiKey` (tenant-auth.ts, lines 51-103): extract the key from
header or query, 401 if missing; look the tenant up with
`findActiveByApiKey`; 401 if absent; otherwise attach a user-less tenant
context, track usage, and pass on. -/
def authenticateApiKey (db : DB) (headerKey queryKey : Option String)
    (ep mth mon : String) : MwResult :=
  match firstTruthy headerKey queryKey with
  | none => .reject 401 apiKeyRequiredBody
  | some key =>
    match findActiveByApiKey db key with
    | none => .reject 401 invalidApiKeyBody
    | some t =>
      .next { tenantId := t.id, tenant := tenantSnapshot t, user := none }
        (trackApiUsage db t.id ep mth mon)

/-- The inner join of `hub_licenses` with `tenants` on
`hubLicenses.tenantId = tenants.id` (tenant-auth.ts, lines 138-139), as the
list of joined row pairs in license order. -/
def joinedLicenseRows (db : DB) : List (HubLicense × Tenant) :=
  db.hubLicenses.flatMap (fun l =>
    (db.tenants.filter (fun t => t.id = l.tenantId)).map (fun t => (l, t)))

/-- `findActiveByKeyAndSerial`: the single query of tenant-auth.ts, lines
119-145 — the join filtered by licenseKey, hubSerial, license status
`active` and tenant status `active`, destructured to its first row. -/
def findActiveByKeyAndSerial (db : DB) (key serial : String) :
    Option (HubLicense × Tenant) :=
  ((joinedLicenseRows db).filter (fun p =>
    p.1.licenseKey = key ∧ p.1.hubSerial = serial ∧
    p.1.status = "active" ∧ p.2.status = "active")).head?

/-- `authenticateHubLicense` (tenant-auth.ts, lines 106-179): both headers
required (JS-falsy check), single joined lookup, then the expiry check
`license.expiresAt && new Date() > license.expiresAt` — a `Date` value is
always truthy, so only `null` skips the comparison.  On success the context
is built from the joined tenant and carries no user. -/
def authenticateHubLicense (db : DB) (now : Int)
    (keyHeader serialHeader : Option String) (ep mth mon : String) : MwResult :=
  match keyHeader, serialHeader with
  | some key, some serial =>
    if key = "" ∨ serial = "" then .reject 401 hubAuthRequiredBody
    else
      match findActiveByKeyAndSerial db key serial with
      | none => .reject 401 invalidHubLicenseBody
      | some (l, t) =>
        match l.expiresAt with
        | some e =>
          if e < now then .reject 401 licenseExpiredBody
          else .next { tenantId := l.tenantId, tenant := tenantSnapshot t,
                       user := none } (trackApiUsage db l.tenantId ep mth mon)
        | none =>
          .next { tenantId := l.tenantId, tenant := tenantSnapshot t,
                  user := none } (trackApiUsage db l.tenantId ep mth mon)
  | _, _ => .reject 401 hubAuthRequiredBody

/-- Outcome of an authorization guard (no store access: pass or reject). -/
inductive GuardResult where
  | reject (status : Nat) (body : ErrorBody)
  | next
  deriving Repr, DecidableEq

/-- Response bodies of `requireRole` (tenant-auth.ts, lines 212-215 and
222-225). -/
def userAuthRequiredBody : ErrorBody :=
  { error := "User authentication required",
    message := "This endpoint requires user-level authentication" }

def insufficientRoleBody (minRole : String) : ErrorBody :=
  { error := "Insufficient permissions",
    message := "This action requires " ++ minRole ++ " role or higher" }

/-- The role hierarchy of `requireRole` (tenant-auth.ts, line 208). -/
def roleHierarchy : List String := ["viewer", "user", "manager", "admin"]

/-- Recursion behind `jsIndexOf`, carrying the index of the list head. -/
def jsIndexOfAux (x : String) : List String → Nat → Int
  | [], _ => -1
  | y :: ys, i => if y = x then (i : Int) else jsIndexOfAux x ys (i + 1)

/-- JavaScript `Array.prototype.indexOf`: first index of the element, or -1
when absent. -/
def jsIndexOf (xs : List String) (x : String) : Int :=
  jsIndexOfAux x xs 0

/-- `requireRole(minRole)` (tenant-auth.ts, lines 207-230): 403 when the
context carries no user (`!req.tenant?.user`), 403 when the user's role index
is strictly below `minRole`'s index in the hierarchy, pass otherwise. -/
def requireRole (minRole : String) (tenant : Option TenantContext) :
    GuardResult :=
  match tenant with
  | none => .reject 403 userAuthRequiredBody
  | some ctx =>
    match ctx.user with
    | none => .reject 403 userAuthRequiredBody
    | some u =>
      if jsIndexOf roleHierarchy u.role < jsIndexOf roleHierarchy minRole then
        .reject 403 (insufficientRoleBody minRole)
      else
        .next

/-- The static rate-limit table of `rateLimitByTier` (tenant-auth.ts, lines
286-290). -/
def rateLimits (tier : String) : Option Nat :=
  if tier = "basic" then some 100
  else if tier = "pro" then some 500
  else if tier = "enterprise" then some 2000
  else none

/-- `rateLimits[tier] || 100` (tenant-auth.ts, line 292): the table value, or
the default 100 for a tier outside the table. -/
def computeTierLimit (tier : String) : Nat :=
  match rateLimits tier with
  | some v => v
  | none => 100

/-- Result of the rate limiter: the advisory headers it set (limit and tier),
and a guard action which could in principle reject. -/
structure RLResult where
  headers : Option (Nat × String)
  action : GuardResult
  deriving Repr, DecidableEq

/-- `rateLimitByTier` (tenant-auth.ts, lines 280-300): without a tenant
context it passes straight through; otherwise it sets the
`X-RateLimit-Limit`/`X-RateLimit-Tier` headers from the tier table and passes
on — it never rejects. -/
def rateLimitByTier (tenant : Option TenantContext) : RLResult :=
  match tenant with
  | none => { headers := none, action := .next }
  | some ctx =>
    { headers := some (computeTierLimit ctx.tenant.subscriptionTier,
                       ctx.tenant.subscriptionTier),
      action := .next }

/-- `sequence.toString().padStart(3, '0')` (tenant-auth.ts, line 18). -/
def padSeq (n : Nat) : String :=
  let s := toString n
  if s.length ≥ 3 then s
  else String.mk (List.replicate (3 - s.length) '0') ++ s

/-- `generateHubSerial(tenantSlug, sequence)` (tenant-auth.ts, lines 16-19);
the base-36 `Date.now()` timestamp is an opaque input string here. -/
def generateHubSerial (tenantSlug : String) (sequence : Nat) (ts : String) :
    String :=
  "AO-" ++ tenantSlug.toUpper ++ "-" ++ padSeq sequence ++ "-" ++ ts

/-- The validated body of `POST /api/tenant/hub-licenses`
(`insertHubLicenseSchema`): the caller-supplied license fields; `tenantId`,
`licenseKey`, `hubSerial` and `status` are overridden by the handler. -/
structure HubLicenseDraft where
  hubName : Option String := none
  deploymentLocation : Option String := none
  maxCameras : Nat := 16
  features : String := ""
  expiresAt : Option Int := none
  deriving Repr, DecidableEq

/-- `select count(*) from hubLicenses where tenantId = tid`
(tenant-routes.ts, lines 110-113). -/
def countTenantLicenses (db : DB) (tid : Nat) : Nat :=
  (db.hubLicenses.filter (fun l => l.tenantId = tid)).length

/-- Response body of the cap rejection (tenant-routes.ts, lines 116-119). -/
def hubLimitBody (maxHubs : Nat) : ErrorBody :=
  { error := "Hub limit exceeded",
    message := "Your subscription allows maximum " ++ toString maxHubs ++ " hubs" }

/-- Outcome of the hub-license issuance handler. -/
inductive IssueResult where
  | limitExceeded (status : Nat) (body : ErrorBody)
  | created (status : Nat) (license : HubLicense)
  deriving Repr, DecidableEq

/-- The license row inserted by the issuance handler (tenant-routes.ts,
lines 122-132): draft fields plus the generated key, the serial built from
the slug and count + 1, and status `active`. -/
def newLicenseRow (db : DB) (ctx : TenantContext) (draft : HubLicenseDraft)
    (newId : Nat) (newKey ts : String) : HubLicense :=
  { id := newId, tenantId := ctx.tenantId,
    hubSerial := generateHubSerial ctx.tenant.slug
      (countTenantLicenses db ctx.tenantId + 1) ts,
    licenseKey := newKey, hubName := draft.hubName,
    deploymentLocation := draft.deploymentLocation, status := "active",
    maxCameras := draft.maxCameras, features := draft.features,
    expiresAt := draft.expiresAt }

/-- The body of the `POST /api/tenant/hub-licenses` handler
(tenant-routes.ts, lines 104-145), after validation: re-read the tenant's
license count, reject with a 400 when `count >= maxHubs` of the context's
tenant snapshot, otherwise insert exactly one `active` license row.  `newId`,
`newKey` and `ts` stand for the store-assigned id, the random license key and
the `Date.now()` timestamp. -/
def postHubLicenses (db : DB) (ctx : TenantContext) (draft : HubLicenseDraft)
    (newId : Nat) (newKey ts : String) : IssueResult × DB :=
  if countTenantLicenses db ctx.tenantId ≥ ctx.tenant.maxHubs then
    (.limitExceeded 400 (hubLimitBody ctx.tenant.maxHubs), db)
  else
    let lic := newLicenseRow db ctx draft newId newKey ts
    (.created 201 lic, { db with hubLicenses := db.hubLicenses ++ [lic] })

/-- Outcome of the heartbeat handler. -/
inductive HeartbeatResult where
  | updated (status : Nat) (hub : Hub)
  | registered (status : Nat) (hub : Hub)
  deriving Repr, DecidableEq

/-- `select count(*)`-style count of a tenant's hub rows. -/
def countTenantHubs (db : DB) (tid : Nat) : Nat :=
  (db.hubs.filter (fun h => h.tenantId = tid)).length

/-- `hubSerial.split('-').pop()` (tenant-routes.ts, line 304): the last
dash-separated segment of the serial. -/
def serialSuffix (serial : String) : String :=
  (serial.splitOn "-").getLastD ""

/-- `value || fallback` on an optional string, as in `status || "online"`. -/
def jsOrDefault (o : Option String) (d : String) : String :=
  match o with
  | some s => if s = "" then d else s
  | none => d

/-- The hub row inserted on first heartbeat (tenant-routes.ts, lines
300-312): `status || "online"`, `configuration || {}` (the empty jsonb
object is rendered as the empty string here); `ipAddress` and `version` are
stored as given, possibly null. -/
def newHubRow (ctx : TenantContext) (serial : String)
    (bodyStatus : Option String) (now : Int) (ip ver : Option String)
    (cfg : Option String) (newId : Nat) : Hub :=
  { id := newId, tenantId := ctx.tenantId,
    name := "Hub-" ++ serialSuffix serial, serialNumber := serial,
    status := jsOrDefault bodyStatus "online",
    lastHeartbeat := some now, ipAddress := ip, version := ver,
    configuration := match cfg with | some c => c | none => "" }

/-- The body of the `POST /api/hub/heartbeat` handler (tenant-routes.ts,
lines 268-320): look for the tenant's hub row with the request's serial;
update it if present (an absent body field is skipped by the update builder,
so the stored value survives), otherwise insert a fresh row — with no
reference to the tenant's `maxHubs` cap or hub count in either branch. -/
def postHubHeartbeat (db : DB) (ctx : TenantContext) (serial : String)
    (bodyStatus : Option String) (now : Int) (ip ver : Option String)
    (cfg : Option String) (newId : Nat) : HeartbeatResult × DB :=
  match (db.hubs.filter (fun h =>
      h.tenantId = ctx.tenantId ∧ h.serialNumber = serial)).head? with
  | some existing =>
    let updatedHub : Hub :=
      { existing with
        status := jsOrDefault bodyStatus "online",
        lastHeartbeat := some now,
        ipAddress := match ip with | some s => some s | none => existing.ipAddress,
        version := match ver with | some s => some s | none => existing.version,
        configuration := match cfg with | some c => c
                                        | none => existing.configuration }
    (.updated 200 updatedHub,
     { db with hubs := db.hubs.map (fun h =>
         if h.id = existing.id then updatedHub else h) })
  | none =>
    let h := newHubRow ctx serial bodyStatus now ip ver cfg newId
    (.registered 201 h, { db with hubs := db.hubs ++ [h] })

/-- Outcome of a full route pipeline: a middleware rejection, or the route
handler's own result. -/
inductive PipelineResult where
  | rejected (status : Nat) (body : ErrorBody)
  | handled (r : IssueResult) (db : DB)
  deriving Repr, DecidableEq

/-- The full middleware chain of `POST /api/tenant/hub-licenses`
(tenant-routes.ts, lines 89 and 104): `authenticateApiKey`, then
`rateLimitByTier`, then `requireRole("admin")`, then the handler. -/
def hubLicensesRoute (db : DB) (headerKey queryKey : Option String)
    (ep mth mon : String) (draft : HubLicenseDraft) (newId : Nat)
    (newKey ts : String) : PipelineResult :=
  match authenticateApiKey db headerKey queryKey ep mth mon with
  | .reject s b => .rejected s b
  | .next ctx db1 =>
    match (rateLimitByTier (some ctx)).action with
    | .reject s b => .rejected s b
    | .next =>
      match requireRole "admin" (some ctx) with
      | .reject s b => .rejected s b
      | .next =>
        let r := postHubLicenses db1 ctx draft newId newKey ts
        .handled r.1 r.2

/-! Concrete sample rows, contexts and stores used by the witness theorems. -/

def acmeTenant : Tenant :=
  { id := 1, name := "Acme Security", slug := "acme", apiKey := "ak_1",
    subscriptionTier := "pro", maxHubs := 2, maxCameras := 50,
    status := "active" }

def suspendedTenant : Tenant :=
  { id := 2, name := "Globex", slug := "globex", apiKey := "ak_2",
    subscriptionTier := "basic", maxHubs := 5, maxCameras := 50,
    status := "suspended" }

def expiredLicense : HubLicense :=
  { id := 1, tenantId := 1, hubSerial := "AO-ACME-001-t0",
    licenseKey := "lk_1", status := "active", expiresAt := some 100 }

def revokedLicense : HubLicense :=
  { id := 2, tenantId := 1, hubSerial := "AO-ACME-002-t0",
    licenseKey := "lk_2", status := "revoked", expiresAt := none }

def capLicenseA : HubLicense :=
  { id := 3, tenantId := 1, hubSerial := "AO-ACME-003-t0",
    licenseKey := "lk_3", status := "active", expiresAt := none }

def capLicenseB : HubLicense :=
  { id := 4, tenantId := 1, hubSerial := "AO-ACME-004-t0",
    licenseKey := "lk_4", status := "active", expiresAt := none }

def acmeHubA : Hub :=
  { id := 1, tenantId := 1, name := "Hub-A", serialNumber := "AO-ACME-003-t0",
    status := "online" }

def acmeHubB : Hub :=
  { id := 2, tenantId := 1, name := "Hub-B", serialNumber := "AO-ACME-004-t0",
    status := "online" }

def emptyDB : DB := { tenants := [], hubLicenses := [], hubs := [], usage := [] }

def dbSuspended : DB :=
  { tenants := [acmeTenant, suspendedTenant], hubLicenses := [], hubs := [],
    usage := [] }

def dbExpired : DB :=
  { tenants := [acmeTenant], hubLicenses := [expiredLicense], hubs := [],
    usage := [] }

def dbRevoked : DB :=
  { tenants := [acmeTenant], hubLicenses := [revokedLicense], hubs := [],
    usage := [] }

def dbAtCap : DB :=
  { tenants := [acmeTenant], hubLicenses := [capLicenseA, capLicenseB],
    hubs := [], usage := [] }

def dbBelowCap : DB :=
  { tenants := [acmeTenant], hubLicenses := [capLicenseA], hubs := [],
    usage := [] }

def dbHubsAtCap : DB :=
  { tenants := [acmeTenant], hubLicenses := [capLicenseA, capLicenseB],
    hubs := [acmeHubA, acmeHubB], usage := [] }

def managerUser : CtxUser :=
  { id := 1, email := "m@acme.example", role := "manager", permissions := [] }

def adminUser : CtxUser :=
  { id := 2, email := "a@acme.example", role := "admin", permissions := [] }

def ghostUser : CtxUser :=
  { id := 3, email := "g@acme.example", role := "ghost", permissions := [] }

def acmeCtx : TenantContext :=
  { tenantId := 1, tenant := tenantSnapshot acmeTenant, user := none }

def managerCtx : TenantContext := { acmeCtx with user := some managerUser }

def adminCtx : TenantContext := { acmeCtx with user := some adminUser }

def ghostCtx : TenantContext := { acmeCtx with user := some ghostUser }

/-! Helper lemmas. -/

theorem head_filter_none {α : Type} {p : α → Bool} :
    ∀ {l : List α}, (∀ a ∈ l, p a = false) → (l.filter p).head? = none := by
  intro l
  induction l with
  | nil => intro _; rfl
  | cons a l ih =>
    intro h
    have ha : p a = false := h a (by simp)
    rw [List.filter_cons, ha]
    simp only [Bool.false_eq_true, if_false]
    exact ih (fun x hx => h x (List.mem_cons_of_mem a hx))

theorem jsIndexOfAux_ge {x : String} :
    ∀ (l : List String) (i : Nat), -1 ≤ jsIndexOfAux x l i := by
  intro l
  induction l with
  | nil => intro i; simp [jsIndexOfAux]
  | cons y ys ih =>
    intro i
    by_cases hy : y = x
    · simp [jsIndexOfAux, hy]
      omega
    · simp [jsIndexOfAux, hy]
      exact ih (i + 1)

theorem jsIndexOfAux_not_mem {x : String} :
    ∀ {l : List String}, x ∉ l → ∀ i, jsIndexOfAux x l i = -1 := by
  intro l
  induction l with
  | nil => intro _ i; rfl
  | cons y ys ih =>
    intro h i
    have hy : y ≠ x := fun e => h (e ▸ List.mem_cons_self y ys)
    have hys : x ∉ ys := fun e => h (List.mem_cons_of_mem y e)
    simp [jsIndexOfAux, hy]
    exact ih hys (i + 1)

theorem jsIndexOf_not_mem {x : String} {l : List String} (h : x ∉ l) :
    jsIndexOf l x = -1 :=
  jsIndexOfAux_not_mem h 0

theorem jsIndexOf_ge (l : List String) (x : String) : -1 ≤ jsIndexOf l x :=
  jsIndexOfAux_ge l 0

/-- The `onConflictDoUpdate` target of the usage tracker has no matching
unique index in the schema, so each tracking insert fails and is swallowed:
the store is never written. -/
theorem trackApiUsage_eq (db : DB) (tid : Nat) (ep mth mon : String) :
    trackApiUsage db tid ep mth mon = db := by
  have hc : (apiUsageUniqueColumnSets.any
      fun cols => sameColumnSet cols usageConflictTarget) = false := by decide
  unfold trackApiUsage
  rw [hc]
  simp

/-- C1: a syntactically valid API key whose tenant is suspended or cancelled
is filtered out by the single `findActiveByApiKey` query, the request is
rejected 401 with the very response an unknown key gets, no tenant context is
attached and the downstream handler never runs. -/
theorem apiKey_inactive_tenant_rejected
    (db : DB) (key : String) (t : Tenant) (queryKey : Option String)
    (ep mth mon : String)
    (hne : key ≠ "")
    (hmem : t ∈ db.tenants) (hkey : t.apiKey = key)
    (hstat : t.status = "suspended" ∨ t.status = "cancelled")
    (huniq : ∀ t2 ∈ db.tenants, t2.apiKey = key → t2 = t) :
    findActiveByApiKey db key = none ∧
    authenticateApiKey db (some key) queryKey ep mth mon =
      .reject 401 invalidApiKeyBody ∧
    (∀ db2, (∀ t2 ∈ db2.tenants, t2.apiKey ≠ key) →
      authenticateApiKey db2 (some key) queryKey ep mth mon =
        .reject 401 invalidApiKeyBody) ∧
    (∀ ctx db3, authenticateApiKey db (some key) queryKey ep mth mon ≠
      .next ctx db3) := by
  have hft : firstTruthy (some key) queryKey = some key := by
    simp [firstTruthy, jsTruthy, hne]
  have hfind : findActiveByApiKey db key = none := by
    apply head_filter_none
    intro a ha
    by_cases hak : a.apiKey = key
    · have hat := huniq a ha hak
      subst hat
      rcases hstat with hs | hs <;> simp [hak, hs]
    · simp [hak]
  have hauth : authenticateApiKey db (some key) queryKey ep mth mon =
      .reject 401 invalidApiKeyBody := by
    simp only [authenticateApiKey, hft, hfind]
  refine ⟨hfind, hauth, ?_, ?_⟩
  · intro db2 h2
    have hfind2 : findActiveByApiKey db2 key = none := by
      apply head_filter_none
      intro a ha
      simp [h2 a ha]
    simp only [authenticateApiKey, hft, hfind2]
  · intro ctx db3 hc
    rw [hauth] at hc
    exact MwResult.noConfusion hc

/-- Witness for C1 at a concrete store: the suspended tenant's key `ak_2` is
rejected exactly like an unknown key. -/
theorem apiKey_inactive_tenant_rejected_witness :
    findActiveByApiKey dbSuspended "ak_2" = none ∧
    authenticateApiKey dbSuspended (some "ak_2") none "/api/tenant/info"
      "GET" "2026-10" = .reject 401 invalidApiKeyBody := by
  have h := apiKey_inactive_tenant_rejected dbSuspended "ak_2" suspendedTenant
    none "/api/tenant/info" "GET" "2026-10" (by decide) (by decide) rfl
    (Or.inl rfl) (by decide)
  exact ⟨h.1, h.2.1⟩

/-- C4 (code bug): the usage tracker's `ON CONFLICT (tenant_id, endpoint,
method, month)` has no matching unique index in the schema, so every
tracking insert fails and is swallowed — `trackApiUsage` never writes, and
two record calls for the same key leave no row at all, not one row with
counter 2. -/
theorem usage_upsert_never_accumulates :
    (∀ db tid ep mth mon, trackApiUsage db tid ep mth mon = db) ∧
    (trackApiUsage (trackApiUsage emptyDB 1 "/api/tenant/info" "GET"
        "2026-10") 1 "/api/tenant/info" "GET" "2026-10").usage = [] := by
  refine ⟨trackApiUsage_eq, ?_⟩
  rw [trackApiUsage_eq, trackApiUsage_eq]
  rfl

/-- C5: `requireRole` orders roles as viewer < user < manager < admin,
rejects 403 without an attached user whatever the tenant, rejects 403 when
the user's role index is strictly below the required one, passes otherwise;
in particular admin-guarded routes reject a manager and accept an admin. -/
theorem requireRole_spec (minRole : String) (ctx : TenantContext)
    (u : CtxUser) :
    roleHierarchy = ["viewer", "user", "manager", "admin"] ∧
    requireRole minRole none = .reject 403 userAuthRequiredBody ∧
    (ctx.user = none →
      requireRole minRole (some ctx) = .reject 403 userAuthRequiredBody) ∧
    (ctx.user = some u →
      jsIndexOf roleHierarchy u.role < jsIndexOf roleHierarchy minRole →
      requireRole minRole (some ctx) =
        .reject 403 (insufficientRoleBody minRole)) ∧
    (ctx.user = some u →
      jsIndexOf roleHierarchy minRole ≤ jsIndexOf roleHierarchy u.role →
      requireRole minRole (some ctx) = .next) ∧
    (ctx.user = some u → u.role = "manager" →
      requireRole "admin" (some ctx) =
        .reject 403 (insufficientRoleBody "admin")) ∧
    (ctx.user = some u → u.role = "admin" →
      requireRole "admin" (some ctx) = .next) := by
  refine ⟨rfl, rfl, ?_, ?_, ?_, ?_, ?_⟩
  · intro hu; simp [requireRole, hu]
  · intro hu hlt; simp [requireRole, hu, hlt]
  · intro hu hle
    have hnlt : ¬ jsIndexOf roleHierarchy u.role <
        jsIndexOf roleHierarchy minRole := by omega
    simp [requireRole, hu, hnlt]
  · intro hu hrole
    simp only [requireRole, hu]
    rw [hrole]
    decide
  · intro hu hrole
    simp only [requireRole, hu]
    rw [hrole]
    decide

/-- Witness for C5: the admin guard on a manager and on an admin. -/
theorem requireRole_spec_witness :
    requireRole "admin" (some managerCtx) =
      .reject 403 (insufficientRoleBody "admin") ∧
    requireRole "admin" (some adminCtx) = .next :=
  ⟨(requireRole_spec "admin" managerCtx managerUser).2.2.2.2.2.1 rfl rfl,
   (requireRole_spec "admin" adminCtx adminUser).2.2.2.2.2.2 rfl rfl⟩

/-- C10: for a `minRole` outside the hierarchy the required index is -1, no
role index is strictly below it, so any context with an attached user passes
the guard, whatever the user's role. -/
theorem requireRole_unknown_minRole_passes (minRole : String)
    (ctx : TenantContext) (u : CtxUser)
    (hmin : minRole ∉ roleHierarchy) (hu : ctx.user = some u) :
    jsIndexOf roleHierarchy minRole = -1 ∧
    requireRole minRole (some ctx) = .next := by
  have h1 : jsIndexOf roleHierarchy minRole = -1 := jsIndexOf_not_mem hmin
  have h2 : ¬ jsIndexOf roleHierarchy u.role <
      jsIndexOf roleHierarchy minRole := by
    have := jsIndexOf_ge roleHierarchy u.role
    omega
  refine ⟨h1, ?_⟩
  simp [requireRole, hu, h2]

/-- Witness for C10: guard parameter `owner` passes a user whose role
`ghost` is itself outside the hierarchy. -/
theorem requireRole_unknown_minRole_passes_witness :
    requireRole "owner" (some ghostCtx) = .next :=
  (requireRole_unknown_minRole_passes "owner" ghostCtx ghostUser (by decide)
    rfl).2

/-- C2: a (license key, hub serial) pair resolving through
`findActiveByKeyAndSerial` — so with license status `active` and an active
tenant — but with `expiresAt` in the past is rejected 401 with the expired
body, which differs from the invalid-credential body; no context is attached
and the downstream handler never runs. -/
theorem hubLicense_expired_rejected
    (db : DB) (now e : Int) (key serial : String) (l : HubLicense)
    (t : Tenant) (ep mth mon : String)
    (hkne : key ≠ "") (hsne : serial ≠ "")
    (hfind : findActiveByKeyAndSerial db key serial = some (l, t))
    (hexp : l.expiresAt = some e) (hpast : e < now) :
    authenticateHubLicense db now (some key) (some serial) ep mth mon =
      .reject 401 licenseExpiredBody ∧
    licenseExpiredBody ≠ invalidHubLicenseBody ∧
    (∀ ctx db2,
      authenticateHubLicense db now (some key) (some serial) ep mth mon ≠
        .next ctx db2) := by
  have hauth : authenticateHubLicense db now (some key) (some serial)
      ep mth mon = .reject 401 licenseExpiredBody := by
    simp only [authenticateHubLicense]
    rw [if_neg (by simp [hkne, hsne])]
    simp only [hfind, hexp]
    rw [if_pos hpast]
  refine ⟨hauth, by decide, ?_⟩
  intro ctx db2 hc
  rw [hauth] at hc
  exact MwResult.noConfusion hc

/-- Witness for C2: the active but expired license `lk_1` at time 200. -/
theorem hubLicense_expired_rejected_witness :
    authenticateHubLicense dbExpired 200 (some "lk_1")
      (some "AO-ACME-001-t0") "/api/hub/heartbeat" "POST" "2026-10" =
      .reject 401 licenseExpiredBody ∧
    licenseExpiredBody ≠ invalidHubLicenseBody := by
  have h := hubLicense_expired_rejected dbExpired 200 100 "lk_1"
    "AO-ACME-001-t0" expiredLicense acmeTenant "/api/hub/heartbeat" "POST"
    "2026-10" (by decide) (by decide) rfl rfl (by decide)
  exact ⟨h.1, h.2.1⟩

/-- C6: every credential failure of the lookup stage yields the same generic
body — a hub pair whose license is suspended/revoked or whose tenant is
inactive gets the exact response of an absent pair, and an inactive tenant's
API key gets the exact response of an unknown key. -/
theorem generic_credential_failure
    (db db2 db3 db4 : DB) (now : Int) (key serial key2 : String)
    (queryKey : Option String) (ep mth mon : String)
    (hkne : key ≠ "") (hsne : serial ≠ "") (hk2 : key2 ≠ "")
    (hinact : ∀ p ∈ joinedLicenseRows db, p.1.licenseKey = key →
      p.1.hubSerial = serial →
      ¬(p.1.status = "active" ∧ p.2.status = "active"))
    (habsent : ∀ p ∈ joinedLicenseRows db2,
      ¬(p.1.licenseKey = key ∧ p.1.hubSerial = serial))
    (htinact : ∀ t ∈ db3.tenants, t.apiKey = key2 → t.status ≠ "active")
    (htabsent : ∀ t ∈ db4.tenants, t.apiKey ≠ key2) :
    authenticateHubLicense db now (some key) (some serial) ep mth mon =
      .reject 401 invalidHubLicenseBody ∧
    authenticateHubLicense db2 now (some key) (some serial) ep mth mon =
      .reject 401 invalidHubLicenseBody ∧
    authenticateHubLicense db now (some key) (some serial) ep mth mon =
      authenticateHubLicense db2 now (some key) (some serial) ep mth mon ∧
    authenticateApiKey db3 (some key2) queryKey ep mth mon =
      .reject 401 invalidApiKeyBody ∧
    authenticateApiKey db4 (some key2) queryKey ep mth mon =
      .reject 401 invalidApiKeyBody ∧
    authenticateApiKey db3 (some key2) queryKey ep mth mon =
      authenticateApiKey db4 (some key2) queryKey ep mth mon := by
  have hfind1 : findActiveByKeyAndSerial db key serial = none := by
    apply head_filter_none
    intro p hp
    by_cases h1 : p.1.licenseKey = key
    · by_cases h2 : p.1.hubSerial = serial
      · have h3 := hinact p hp h1 h2
        simp only [decide_eq_false_iff_not]
        intro hcon
        exact h3 ⟨hcon.2.2.1, hcon.2.2.2⟩
      · simp [h2]
    · simp [h1]
  have hfind2 : findActiveByKeyAndSerial db2 key serial = none := by
    apply head_filter_none
    intro p hp
    have h1 := habsent p hp
    simp only [decide_eq_false_iff_not]
    intro hcon
    exact h1 ⟨hcon.1, hcon.2.1⟩
  have hhub1 : authenticateHubLicense db now (some key) (some serial)
      ep mth mon = .reject 401 invalidHubLicenseBody := by
    simp only [authenticateHubLicense]
    rw [if_neg (by simp [hkne, hsne])]
    simp only [hfind1]
  have hhub2 : authenticateHubLicense db2 now (some key) (some serial)
      ep mth mon = .reject 401 invalidHubLicenseBody := by
    simp only [authenticateHubLicense]
    rw [if_neg (by simp [hkne, hsne])]
    simp only [hfind2]
  have hft : firstTruthy (some key2) queryKey = some key2 := by
    simp [firstTruthy, jsTruthy, hk2]
  have hfindT3 : findActiveByApiKey db3 key2 = none := by
    apply head_filter_none
    intro a ha
    by_cases hak : a.apiKey = key2
    · have hs := htinact a ha hak
      simp [hak, hs]
    · simp [hak]
  have hfindT4 : findActiveByApiKey db4 key2 = none := by
    apply head_filter_none
    intro a ha
    simp [htabsent a ha]
  have hapi3 : authenticateApiKey db3 (some key2) queryKey ep mth mon =
      .reject 401 invalidApiKeyBody := by
    simp only [authenticateApiKey, hft, hfindT3]
  have hapi4 : authenticateApiKey db4 (some key2) queryKey ep mth mon =
      .reject 401 invalidApiKeyBody := by
    simp only [authenticateApiKey, hft, hfindT4]
  exact ⟨hhub1, hhub2, by rw [hhub1, hhub2], hapi3, hapi4,
    by rw [hapi3, hapi4]⟩

/-- Witness for C6: the revoked license `lk_2` against the empty store, and
the suspended tenant's key `ak_2` against the empty store. -/
theorem generic_credential_failure_witness :
    authenticateHubLicense dbRevoked 200 (some "lk_2")
      (some "AO-ACME-002-t0") "/api/hub/heartbeat" "POST" "2026-10" =
      authenticateHubLicense emptyDB 200 (some "lk_2")
        (some "AO-ACME-002-t0") "/api/hub/heartbeat" "POST" "2026-10" ∧
    authenticateApiKey dbSuspended (some "ak_2") none "/api/tenant/info"
      "GET" "2026-10" =
      authenticateApiKey emptyDB (some "ak_2") none "/api/tenant/info"
        "GET" "2026-10" := by
  have h := generic_credential_failure dbRevoked emptyDB dbSuspended emptyDB
    200 "lk_2" "AO-ACME-002-t0" "ak_2" none "/api/tenant/info" "GET"
    "2026-10" (by decide) (by decide) (by decide) (by decide) (by decide)
    (by decide) (by decide)
  exact ⟨h.2.2.1, h.2.2.2.2.2⟩

/-- C7: the rate limiter derives the per-minute limit from the static tier
table with default 100 for unknown tiers, annotates the response with the
limit and the tier, and always passes the request on — it never rejects. -/
theorem rateLimitByTier_spec (ctx : TenantContext) (tier : String)
    (h1 : tier ≠ "basic") (h2 : tier ≠ "pro") (h3 : tier ≠ "enterprise") :
    rateLimitByTier (some ctx) =
      { headers := some (computeTierLimit ctx.tenant.subscriptionTier,
                         ctx.tenant.subscriptionTier),
        action := .next } ∧
    computeTierLimit "basic" = 100 ∧ computeTierLimit "pro" = 500 ∧
    computeTierLimit "enterprise" = 2000 ∧ computeTierLimit tier = 100 ∧
    (∀ s b, (rateLimitByTier (some ctx)).action ≠ .reject s b) := by
  refine ⟨rfl, rfl, rfl, rfl, ?_, ?_⟩
  · simp [computeTierLimit, rateLimits, h1, h2, h3]
  · intro s b hc
    exact GuardResult.noConfusion hc

/-- Witness for C7: the pro tenant gets limit 500 and the unknown tier
`free` falls back to 100. -/
theorem rateLimitByTier_spec_witness :
    rateLimitByTier (some acmeCtx) =
      { headers := some (computeTierLimit acmeCtx.tenant.subscriptionTier,
                         acmeCtx.tenant.subscriptionTier),
        action := .next } ∧
    computeTierLimit "free" = 100 := by
  have h := rateLimitByTier_spec acmeCtx "free" (by decide) (by decide)
    (by decide)
  exact ⟨h.1, h.2.2.2.2.1⟩

/-- C3: the issuance handler re-reads the tenant's license count; at or over
the cap it rejects and leaves the store untouched, strictly below the cap it
inserts exactly one new license row. -/
theorem hubLicense_cap_enforced
    (db : DB) (ctx : TenantContext) (draft : HubLicenseDraft)
    (newId : Nat) (newKey ts : String) :
    (countTenantLicenses db ctx.tenantId ≥ ctx.tenant.maxHubs →
      postHubLicenses db ctx draft newId newKey ts =
        (.limitExceeded 400 (hubLimitBody ctx.tenant.maxHubs), db)) ∧
    (countTenantLicenses db ctx.tenantId < ctx.tenant.maxHubs →
      postHubLicenses db ctx draft newId newKey ts =
        (.created 201 (newLicenseRow db ctx draft newId newKey ts),
         { db with hubLicenses := db.hubLicenses ++
             [newLicenseRow db ctx draft newId newKey ts] })) := by
  constructor
  · intro h
    simp only [postHubLicenses]
    rw [if_pos h]
  · intro h
    simp only [postHubLicenses]
    rw [if_neg (by omega)]

/-- Witness for C3: the two-hub tenant at its cap is refused with no write;
with one license left it gets exactly one new row. -/
theorem hubLicense_cap_enforced_witness :
    postHubLicenses dbAtCap acmeCtx {} 9 "lk_9" "t9" =
      (.limitExceeded 400 (hubLimitBody acmeCtx.tenant.maxHubs), dbAtCap) ∧
    postHubLicenses dbBelowCap acmeCtx {} 9 "lk_9" "t9" =
      (.created 201 (newLicenseRow dbBelowCap acmeCtx {} 9 "lk_9" "t9"),
       { dbBelowCap with hubLicenses := dbBelowCap.hubLicenses ++
           [newLicenseRow dbBelowCap acmeCtx {} 9 "lk_9" "t9"] }) :=
  ⟨(hubLicense_cap_enforced dbAtCap acmeCtx {} 9 "lk_9" "t9").1 (by decide),
   (hubLicense_cap_enforced dbBelowCap acmeCtx {} 9 "lk_9" "t9").2
     (by decide)⟩

/-- A successful API-key authentication always attaches a user-less
context. -/
theorem authenticateApiKey_next_user_none (db : DB)
    (hk qk : Option String) (ep mth mon : String) (ctx : TenantContext)
    (db1 : DB)
    (h : authenticateApiKey db hk qk ep mth mon = .next ctx db1) :
    ctx.user = none := by
  unfold authenticateApiKey at h
  split at h
  · exact MwResult.noConfusion h
  · split at h
    · exact MwResult.noConfusion h
    · injection h with h1 h2
      subst h1
      rfl

/-- A successful hub-license authentication always attaches a user-less
context. -/
theorem authenticateHubLicense_next_user_none (db : DB) (now : Int)
    (kh sh : Option String) (ep mth mon : String) (ctx : TenantContext)
    (db1 : DB)
    (h : authenticateHubLicense db now kh sh ep mth mon = .next ctx db1) :
    ctx.user = none := by
  unfold authenticateHubLicense at h
  split at h
  · split at h
    · exact MwResult.noConfusion h
    · split at h
      · exact MwResult.noConfusion h
      · split at h
        · split at h
          · exact MwResult.noConfusion h
          · injection h with h1 h2
            subst h1
            rfl
        · injection h with h1 h2
          subst h1
          rfl
  · exact MwResult.noConfusion h

/-- The hub-licenses route pipeline always ends in a rejection. -/
theorem hubLicensesRoute_rejects (db : DB) (hk qk : Option String)
    (ep mth mon : String) (draft : HubLicenseDraft) (newId : Nat)
    (newKey ts : String) :
    ∃ s b, hubLicensesRoute db hk qk ep mth mon draft newId newKey ts =
      .rejected s b := by
  cases hA : authenticateApiKey db hk qk ep mth mon with
  | reject s b =>
    exact ⟨s, b, by simp only [hubLicensesRoute, hA]⟩
  | next ctx db1 =>
    have hu := authenticateApiKey_next_user_none db hk qk ep mth mon ctx
      db1 hA
    have hrr : requireRole "admin" (some ctx) =
        .reject 403 userAuthRequiredBody := by
      simp [requireRole, hu]
    exact ⟨403, userAuthRequiredBody,
      by simp only [hubLicensesRoute, hA, rateLimitByTier, hrr]⟩

/-- C8: neither authentication pipeline ever attaches a user, so the
admin-guarded `POST /api/tenant/hub-licenses` route never reaches its
handler: an authenticated request is always turned away with the 403
user-authentication-required body, and issuance over HTTP is unreachable. -/
theorem hub_license_issuance_unreachable :
    (∀ db hk qk ep mth mon ctx db1,
      authenticateApiKey db hk qk ep mth mon = .next ctx db1 →
      ctx.user = none) ∧
    (∀ db now kh sh ep mth mon ctx db1,
      authenticateHubLicense db now kh sh ep mth mon = .next ctx db1 →
      ctx.user = none) ∧
    (∀ db hk qk ep mth mon draft newId newKey ts r db2,
      hubLicensesRoute db hk qk ep mth mon draft newId newKey ts ≠
        .handled r db2) ∧
    (∀ db hk qk ep mth mon draft newId newKey ts ctx db1,
      authenticateApiKey db hk qk ep mth mon = .next ctx db1 →
      hubLicensesRoute db hk qk ep mth mon draft newId newKey ts =
        .rejected 403 userAuthRequiredBody) := by
  refine ⟨authenticateApiKey_next_user_none,
    authenticateHubLicense_next_user_none, ?_, ?_⟩
  · intro db hk qk ep mth mon draft newId newKey ts r db2 hc
    obtain ⟨s, b, hsb⟩ := hubLicensesRoute_rejects db hk qk ep mth mon draft
      newId newKey ts
    rw [hsb] at hc
    exact PipelineResult.noConfusion hc
  · intro db hk qk ep mth mon draft newId newKey ts ctx db1 hA
    have hu := authenticateApiKey_next_user_none db hk qk ep mth mon ctx
      db1 hA
    have hrr : requireRole "admin" (some ctx) =
        .reject 403 userAuthRequiredBody := by
      simp [requireRole, hu]
    simp only [hubLicensesRoute, hA, rateLimitByTier, hrr]

/-- Witness for C8: a valid key of an active tenant authenticates, yet the
issuance route answers 403 user-authentication-required. -/
theorem hub_license_issuance_unreachable_witness :
    hubLicensesRoute dbSuspended (some "ak_1") none
      "/api/tenant/hub-licenses" "POST" "2026-10" {} 9 "lk_9" "t9" =
      .rejected 403 userAuthRequiredBody :=
  hub_license_issuance_unreachable.2.2.2 dbSuspended (some "ak_1") none
    "/api/tenant/hub-licenses" "POST" "2026-10" {} 9 "lk_9" "t9" acmeCtx
    (trackApiUsage dbSuspended 1 "/api/tenant/hub-licenses" "POST"
      "2026-10") rfl

/-- C8 counterexample: a request with no credential at all is rejected by
the issuance route with a 401 and the missing-key body, not with the 403
user-authentication-required response. -/
theorem hub_license_issuance_not_always_403 :
    hubLicensesRoute emptyDB none none "/api/tenant/hub-licenses" "POST"
      "2026-10" {} 9 "lk_9" "t9" = .rejected 401 apiKeyRequiredBody ∧
    PipelineResult.rejected 401 apiKeyRequiredBody ≠
      PipelineResult.rejected 403 userAuthRequiredBody :=
  ⟨rfl, by decide⟩

/-- C9: a heartbeat for a serial with no hub row inserts a fresh row with no
look at the tenant's `maxHubs` cap or hub count, so heartbeats alone push
the tenant's hub count past the cap. -/
theorem heartbeat_ignores_hub_cap (db : DB) (ctx : TenantContext)
    (serial : String) (bodyStatus : Option String) (now : Int)
    (ip ver cfg : Option String) (newId : Nat)
    (hnone : ∀ h ∈ db.hubs,
      ¬(h.tenantId = ctx.tenantId ∧ h.serialNumber = serial)) :
    postHubHeartbeat db ctx serial bodyStatus now ip ver cfg newId =
      (.registered 201 (newHubRow ctx serial bodyStatus now ip ver cfg newId),
       { db with hubs := db.hubs ++
           [newHubRow ctx serial bodyStatus now ip ver cfg newId] }) ∧
    countTenantHubs
        (postHubHeartbeat db ctx serial bodyStatus now ip ver cfg newId).2
        ctx.tenantId =
      countTenantHubs db ctx.tenantId + 1 ∧
    (countTenantHubs db ctx.tenantId ≥ ctx.tenant.maxHubs →
      countTenantHubs
          (postHubHeartbeat db ctx serial bodyStatus now ip ver cfg newId).2
          ctx.tenantId > ctx.tenant.maxHubs) := by
  have hfind : (db.hubs.filter (fun h =>
      h.tenantId = ctx.tenantId ∧ h.serialNumber = serial)).head? = none := by
    apply head_filter_none
    intro a ha
    simp only [decide_eq_false_iff_not]
    exact hnone a ha
  have h1 : postHubHeartbeat db ctx serial bodyStatus now ip ver cfg newId =
      (.registered 201 (newHubRow ctx serial bodyStatus now ip ver cfg newId),
       { db with hubs := db.hubs ++
           [newHubRow ctx serial bodyStatus now ip ver cfg newId] }) := by
    simp only [postHubHeartbeat, hfind]
  have h2 : countTenantHubs
      (postHubHeartbeat db ctx serial bodyStatus now ip ver cfg newId).2
      ctx.tenantId = countTenantHubs db ctx.tenantId + 1 := by
    rw [h1]
    simp [countTenantHubs, List.filter_append, newHubRow]
  refine ⟨h1, h2, ?_⟩
  intro hge
  omega

/-- Witness for C9: the tenant already at its two-hub cap gets a third hub
row from a heartbeat with an unknown serial. -/
theorem heartbeat_ignores_hub_cap_witness :
    countTenantHubs
        (postHubHeartbeat dbHubsAtCap acmeCtx "AO-ACME-005-t1" none 300
          none none none 9).2 acmeCtx.tenantId > acmeCtx.tenant.maxHubs :=
  (heartbeat_ignores_hub_cap dbHubsAtCap acmeCtx "AO-ACME-005-t1" none 300
    none none none 9 (by decide)).2.2 (by decide)

end AIHub
